import Mathlib

/-!
Shallow embedding of the Product inventory application:
the backend `InventoryService` (Flask + SQLAlchemy over a `products`
table, as given in the repository's SQLite setup document) and the
frontend `App` container with its dashboard predicates (React/TS).

The `products` table is modelled as a list of rows; SQLAlchemy
commit-level behaviour is made explicit: an INSERT that collides with
the string primary key raises `IntegrityError` (modelled with
`Except`), UPDATE and DELETE statements address rows by primary key.
-/

namespace Backend

/-- A row of the `products` table, following the corrected model in
`models.py`: `id` is a String primary key; `quantity` and `unit` are
Integer columns; `price` is a Float column (modelled as `Rat`);
the remaining columns are Strings. -/
structure Product where
  id : String
  name : String
  category : String
  quantity : Int
  unit : Int
  expirationDate : String
  supplier : String
  price : Rat
  sku : String
  deriving Repr, DecidableEq

/-- The database state: the rows of the `products` table. -/
abbrev Table := List Product

/-- The plain mapping structures the service returns:
a `message` string and, for add/update, the serialized `item`. -/
structure SvcResponse where
  message : String
  item : Option Product
  deriving Repr, DecidableEq

/-- `add_item(data)`: builds `Product(**data)`, `session.add`, then
`session.commit()`.  The commit emits an INSERT; SQLite rejects it with
an `IntegrityError` when the primary key already exists, and the
service has no try/except, so the exception propagates (`Except.error`).
On success the row is appended and `{'message': 'Item added', 'item': ...}`
is returned. -/
def add_item (rows : Table) (p : Product) : Except String (Table × SvcResponse) :=
  if rows.any (fun q => q.id == p.id) then
    Except.error "IntegrityError: UNIQUE constraint failed: products.id"
  else
    Except.ok (rows ++ [p], { message := "Item added", item := some p })

/-- `get_item(item_id)`: `session.query(Product).filter(Product.id == item_id).first()`;
returns `None` when no row matches, else the serialized row. -/
def get_item (rows : Table) (item_id : String) : Option Product :=
  rows.find? (fun q => q.id == item_id)

/-- The partial-update payload of `update_item`: an arbitrary JSON
object restricted to the model's attribute names (keys failing
`hasattr(product, key)` are skipped by the source and cannot affect
the row). -/
structure PartialData where
  id : Option String := none
  name : Option String := none
  category : Option String := none
  quantity : Option Int := none
  unit : Option Int := none
  expirationDate : Option String := none
  supplier : Option String := none
  price : Option Rat := none
  sku : Option String := none
  deriving Repr, DecidableEq

/-- The `for key, value in data.items(): if hasattr(product, key):
setattr(product, key, value)` loop of `update_item`: every key present
in the payload is written onto the row — including `id`, since
`hasattr(product, 'id')` holds and this variant has no `key != 'id'`
guard. -/
def applyData (p : Product) (d : PartialData) : Product :=
  { id := d.id.getD p.id
    name := d.name.getD p.name
    category := d.category.getD p.category
    quantity := d.quantity.getD p.quantity
    unit := d.unit.getD p.unit
    expirationDate := d.expirationDate.getD p.expirationDate
    supplier := d.supplier.getD p.supplier
    price := d.price.getD p.price
    sku := d.sku.getD p.sku }

/-- `update_item(item_id, data)`: finds the first row with the given id
(`None` → `{'message': 'Item not found'}`), applies the payload via
`setattr`, commits (an UPDATE addressed by the primary key), and returns
`{'message': 'Item updated', 'item': ...}`. -/
def update_item (rows : Table) (item_id : String) (d : PartialData) :
    Table × SvcResponse :=
  match rows.find? (fun q => q.id == item_id) with
  | none => (rows, { message := "Item not found", item := none })
  | some p =>
      let p' := applyData p d
      (rows.map (fun q => if q.id == item_id then applyData q d else q),
       { message := "Item updated", item := some p' })

/-- `delete_item(item_id)`: finds the row (`None` →
`{'message': 'Item not found'}`), `session.delete` + commit (a DELETE
addressed by the primary key), and returns `{'message': 'Item deleted'}`. -/
def delete_item (rows : Table) (item_id : String) : Table × SvcResponse :=
  match rows.find? (fun q => q.id == item_id) with
  | none => (rows, { message := "Item not found", item := none })
  | some _ =>
      (rows.filter (fun q => !(q.id == item_id)),
       { message := "Item deleted", item := none })

end Backend

namespace Frontend

/-- The `Product` interface exported by `App.tsx`: eleven fields, with
`unit` a string and `quantity`, `reorderLevel` numbers (modelled as
`Int`), `price` a number (modelled as `Rat`). -/
structure Product where
  id : String
  name : String
  category : String
  quantity : Int
  unit : String
  reorderLevel : Int
  expirationDate : String
  batchNumber : String
  supplier : String
  price : Rat
  sku : String
  deriving Repr, DecidableEq

/-- The argument of `handleAddProduct`: `Omit<Product, 'id'>` — every
field of the interface except `id`. -/
structure ProductInput where
  name : String
  category : String
  quantity : Int
  unit : String
  reorderLevel : Int
  expirationDate : String
  batchNumber : String
  supplier : String
  price : Rat
  sku : String
  deriving Repr, DecidableEq

/-- `{...product, id: Date.now().toString()}`: the spread of the input
fields extended with the time-based client-side id. -/
def withId (i : String) (x : ProductInput) : Product :=
  { id := i
    name := x.name
    category := x.category
    quantity := x.quantity
    unit := x.unit
    reorderLevel := x.reorderLevel
    expirationDate := x.expirationDate
    batchNumber := x.batchNumber
    supplier := x.supplier
    price := x.price
    sku := x.sku }

/-- `handleAddProduct` in `App.tsx`: builds `newProduct` with
`id: Date.now().toString()` (the current time `now` in ms is made an
explicit argument) and runs `setProducts([...products, newProduct])`.
The handler performs no network call: its result is a pure function of
the previous list, the clock, and the input. -/
def handleAddProduct (now : Nat) (products : List Product)
    (x : ProductInput) : List Product :=
  products ++ [withId (toString now) x]

/-- `handleDeleteProduct` in `App.tsx`:
`setProducts(products.filter(p => p.id !== id))`.  The handler performs
no network call: the entry is removed unconditionally. -/
def handleDeleteProduct (products : List Product) (id : String) :
    List Product :=
  products.filter (fun p => !(p.id == id))

/-- `handleUpdateProduct` in `App.tsx`:
`setProducts(products.map(p => p.id === updatedProduct.id ? updatedProduct : p))`. -/
def handleUpdateProduct (products : List Product) (updatedProduct : Product) :
    List Product :=
  products.map (fun p => if p.id = updatedProduct.id then updatedProduct else p)

/-- The low-stock filter of the dashboard:
`products.filter(p => p.quantity <= p.reorderLevel)`. -/
def lowStockItems (products : List Product) : List Product :=
  products.filter (fun p => p.quantity ≤ p.reorderLevel)

/-- `Math.floor((expirationDate.getTime() - today.getTime()) / (1000*60*60*24))`:
the signed day count between two millisecond timestamps, rounded toward
negative infinity as `Math.floor` does. -/
def daysUntilExpiration (expirationMs todayMs : Int) : Int :=
  (expirationMs - todayMs).fdiv 86400000

/-- The expiring-soon filter of the dashboard:
`products.filter(p => { ... return daysUntilExpiration <= 90 && daysUntilExpiration > 0; })`.
Parsing `new Date(p.expirationDate)` is abstracted by `parse`, mapping
the stored ISO string to its millisecond timestamp. -/
def expiringSoon (todayMs : Int) (parse : String → Int)
    (products : List Product) : List Product :=
  products.filter (fun p =>
    let d := daysUntilExpiration (parse p.expirationDate) todayMs
    decide (d ≤ 90) && decide (d > 0))

end Frontend

/-- A concrete `products` row used by witnesses and failing-input
evaluations. -/
def pSample : Backend.Product :=
  { id := "P1", name := "Widget", category := "Tools", quantity := 10,
    unit := 1, expirationDate := "2026-12-31", supplier := "Acme",
    price := 5, sku := "W-1" }

/-- A second payload that shares the primary key of `pSample`. -/
def pDup : Backend.Product := { pSample with name := "Gadget", quantity := 3 }

/-- No row of `rows` has id `i`, so the lookup by id misses. -/
theorem find?_id_eq_none (rows : Backend.Table) (i : String)
    (h : ∀ q ∈ rows, q.id ≠ i) :
    rows.find? (fun q => q.id == i) = none :=
  List.find?_eq_none.mpr (fun x hx => by simpa using h x hx)

/-- C1: for a payload carrying every model field whose id is not yet in
the table, `add_item` succeeds, the new row is appended, and `get_item`
on that id returns a record equal to the payload, field for field. -/
theorem add_then_get (rows : Backend.Table) (p : Backend.Product)
    (h : ∀ q ∈ rows, q.id ≠ p.id) :
    Backend.add_item rows p =
      Except.ok (rows ++ [p], { message := "Item added", item := some p }) ∧
    Backend.get_item (rows ++ [p]) p.id = some p := by
  have hany : rows.any (fun q => q.id == p.id) = false := by
    rw [List.any_eq_false]
    intro q hq
    simpa using h q hq
  refine ⟨by simp [Backend.add_item, hany], ?_⟩
  show (rows ++ [p]).find? (fun q => q.id == p.id) = some p
  rw [List.find?_append, find?_id_eq_none rows p.id h]
  simp [List.find?]

/-- Witness for C1 at the empty table and the sample payload. -/
theorem add_then_get_witness :
    Backend.add_item [] pSample =
      Except.ok ([pSample], { message := "Item added", item := some pSample }) ∧
    Backend.get_item [pSample] pSample.id = some pSample := by
  have h := add_then_get [] pSample (by simp)
  simpa using h

/-- After the UPDATE addressed at `item_id`, looking the id up again
finds the first matching row with the payload applied (payload without
an id key, so row ids are unchanged). -/
theorem find?_map_applyData (rows : Backend.Table) (item_id : String)
    (d : Backend.PartialData) (hd : d.id = none) (p : Backend.Product)
    (h : rows.find? (fun q => q.id == item_id) = some p) :
    (rows.map (fun q => if q.id == item_id then Backend.applyData q d else q)).find?
      (fun q => q.id == item_id) = some (Backend.applyData p d) := by
  induction rows with
  | nil => simp at h
  | cons a as ih =>
      by_cases ha : (a.id == item_id) = true
      · rw [List.find?_cons_of_pos
          (p := fun q : Backend.Product => q.id == item_id) as ha] at h
        have hpa : a = p := by injection h
        subst hpa
        have hid : (Backend.applyData a d).id = a.id := by
          simp [Backend.applyData, hd]
        simp only [List.map, if_pos ha]
        exact List.find?_cons_of_pos
          (p := fun q : Backend.Product => q.id == item_id) _
          (by simpa [hid] using ha)
      · rw [List.find?_cons_of_neg
          (p := fun q : Backend.Product => q.id == item_id) as ha] at h
        simp only [List.map, if_neg ha]
        rw [List.find?_cons_of_neg
          (p := fun q : Backend.Product => q.id == item_id) _ ha]
        exact ih h

/-- C2: for an existing row, `update_item` overwrites exactly the
fields present in the partial payload and keeps every absent field at
its previously stored value; a payload of only `quantity` changes only
`quantity`; with no id key in the payload the updated record is what
the table then stores under `item_id`. -/
theorem update_item_partial (rows : Backend.Table) (item_id : String)
    (d : Backend.PartialData) (p : Backend.Product)
    (h : rows.find? (fun q => q.id == item_id) = some p) :
    (Backend.update_item rows item_id d).2 =
      { message := "Item updated", item := some (Backend.applyData p d) } ∧
    ((∀ v, d.id = some v → (Backend.applyData p d).id = v) ∧
      (d.id = none → (Backend.applyData p d).id = p.id)) ∧
    ((∀ v, d.name = some v → (Backend.applyData p d).name = v) ∧
      (d.name = none → (Backend.applyData p d).name = p.name)) ∧
    ((∀ v, d.category = some v → (Backend.applyData p d).category = v) ∧
      (d.category = none → (Backend.applyData p d).category = p.category)) ∧
    ((∀ v, d.quantity = some v → (Backend.applyData p d).quantity = v) ∧
      (d.quantity = none → (Backend.applyData p d).quantity = p.quantity)) ∧
    ((∀ v, d.unit = some v → (Backend.applyData p d).unit = v) ∧
      (d.unit = none → (Backend.applyData p d).unit = p.unit)) ∧
    ((∀ v, d.expirationDate = some v → (Backend.applyData p d).expirationDate = v) ∧
      (d.expirationDate = none → (Backend.applyData p d).expirationDate = p.expirationDate)) ∧
    ((∀ v, d.supplier = some v → (Backend.applyData p d).supplier = v) ∧
      (d.supplier = none → (Backend.applyData p d).supplier = p.supplier)) ∧
    ((∀ v, d.price = some v → (Backend.applyData p d).price = v) ∧
      (d.price = none → (Backend.applyData p d).price = p.price)) ∧
    ((∀ v, d.sku = some v → (Backend.applyData p d).sku = v) ∧
      (d.sku = none → (Backend.applyData p d).sku = p.sku)) ∧
    (∀ n : Int, Backend.applyData p { quantity := some n } =
      { p with quantity := n }) ∧
    (d.id = none →
      Backend.get_item (Backend.update_item rows item_id d).1 item_id =
        some (Backend.applyData p d)) := by
  refine ⟨by simp [Backend.update_item, h], ?_, ?_, ?_, ?_, ?_, ?_, ?_, ?_, ?_, ?_, ?_⟩
  all_goals first
    | exact ⟨fun v hv => by simp [Backend.applyData, hv],
        fun hv => by simp [Backend.applyData, hv]⟩
    | skip
  · intro n
    rfl
  · intro hd
    simp only [Backend.update_item, h, Backend.get_item]
    exact find?_map_applyData rows item_id d hd p h

/-- Witness for C2: a quantity-only payload on the sample table. -/
theorem update_item_partial_witness :
    (Backend.update_item [pSample] "P1" { quantity := some 5 }).2 =
      { message := "Item updated",
        item := some (Backend.applyData pSample { quantity := some 5 }) } ∧
    Backend.applyData pSample { quantity := some 5 } =
      { pSample with quantity := 5 } := by
  have h := update_item_partial [pSample] "P1" { quantity := some 5 } pSample
    (by decide)
  exact ⟨h.1, h.2.2.2.2.2.2.2.2.2.2.1 5⟩

/-- C3, failing-input evaluation: `update_item` with a payload carrying
an `id` key does overwrite the stored primary key — after
`update_item("P1", {id: "P2"})` the table no longer has a row "P1" and
stores the record under "P2". -/
theorem update_item_overwrites_id :
    Backend.get_item
        (Backend.update_item [pSample] "P1" { id := some "P2" }).1 "P1" = none ∧
    Backend.get_item
        (Backend.update_item [pSample] "P1" { id := some "P2" }).1 "P2" =
      some { pSample with id := "P2" } := by
  constructor <;> rfl

/-- C4, failing-input evaluation: `add_item` on a payload whose id
collides with the stored row propagates the `IntegrityError` raised at
commit instead of returning an error-descriptor value. -/
theorem add_item_duplicate_raises :
    Backend.add_item [pSample] pDup =
      Except.error "IntegrityError: UNIQUE constraint failed: products.id" ∧
    pDup.id = pSample.id := by
  exact ⟨rfl, rfl⟩

/-- C5: `delete_item` removes a present row and answers with the
deleted message; on an absent id it answers the not-found message
without raising and leaves the table unchanged; after a delete,
`get_item` misses, and deleting again reports not-found. -/
theorem delete_item_spec (rows : Backend.Table) (item_id : String) :
    (Backend.get_item rows item_id = none →
      Backend.delete_item rows item_id =
        (rows, { message := "Item not found", item := none })) ∧
    (∀ p, Backend.get_item rows item_id = some p →
      (Backend.delete_item rows item_id).2 =
        { message := "Item deleted", item := none } ∧
      Backend.get_item (Backend.delete_item rows item_id).1 item_id = none ∧
      Backend.delete_item (Backend.delete_item rows item_id).1 item_id =
        ((Backend.delete_item rows item_id).1,
         { message := "Item not found", item := none })) := by
  have hfilter : (rows.filter (fun q => !(q.id == item_id))).find?
      (fun q => q.id == item_id) = none := by
    rw [List.find?_eq_none]
    intro x hx
    have hx2 := (List.mem_filter.mp hx).2
    simpa using hx2
  constructor
  · intro h
    simp only [Backend.get_item] at h
    simp [Backend.delete_item, h]
  · intro p hp
    simp only [Backend.get_item] at hp
    refine ⟨by simp [Backend.delete_item, hp], ?_, ?_⟩
    · simp only [Backend.delete_item, hp, Backend.get_item]
      exact hfilter
    · simp only [Backend.delete_item, hp]
      simp [hfilter]

/-- Witness for C5: deleting an absent id, then a present one, on the
sample table. -/
theorem delete_item_spec_witness :
    Backend.delete_item [pSample] "PX" =
      ([pSample], { message := "Item not found", item := none }) ∧
    Backend.get_item (Backend.delete_item [pSample] "P1").1 "P1" = none ∧
    Backend.delete_item (Backend.delete_item [pSample] "P1").1 "P1" =
      ((Backend.delete_item [pSample] "P1").1,
       { message := "Item not found", item := none }) :=
  ⟨(delete_item_spec [pSample] "PX").1 (by decide),
    ((delete_item_spec [pSample] "P1").2 pSample (by decide)).2.1,
    ((delete_item_spec [pSample] "P1").2 pSample (by decide)).2.2⟩

/-- A concrete product of the frontend interface, sitting exactly at
the reorder level. -/
def fSample : Frontend.Product :=
  { id := "F1", name := "Widget", category := "Tools", quantity := 10,
    unit := "pcs", reorderLevel := 10, expirationDate := "2026-12-31",
    batchNumber := "B1", supplier := "Acme", price := 5, sku := "W-1" }

/-- A concrete `Omit<Product, 'id'>` payload for the add handler. -/
def fInput : Frontend.ProductInput :=
  { name := "Widget", category := "Tools", quantity := 10,
    unit := "pcs", reorderLevel := 10, expirationDate := "2026-12-31",
    batchNumber := "B1", supplier := "Acme", price := 5, sku := "W-1" }

/-- An updated record whose id matches no entry of `[fSample]`. -/
def fUpdate : Frontend.Product := { fSample with id := "F2", quantity := 25 }

/-- C6, failing-input evaluation: `handleDeleteProduct` removes the
matching entry immediately and unconditionally — the handler contains
no network call, so removal is never gated on a backend 200 response
and a failed network call cannot keep the item in the list. -/
theorem handleDeleteProduct_removes_without_confirmation :
    Frontend.handleDeleteProduct [fSample] "F1" = [] := rfl

/-- C7, failing-input evaluation: `handleAddProduct` assigns the
time-based client id and appends to the local list, and that is all it
does — the handler contains no network call, so the product is never
persisted to the backend and a backend failure can never roll the
local append back. -/
theorem handleAddProduct_appends_without_persisting :
    Frontend.handleAddProduct 1730000000000 [] fInput =
      [{ fSample with id := "1730000000000" }] := by
  decide

/-- C8: membership in the dashboard low-stock filter holds exactly when
`quantity <= reorderLevel`; at the boundary, a listed product with
`quantity = reorderLevel` is classified low-stock and one with
`quantity = reorderLevel + 1` is not. -/
theorem lowStock_boundary (products : List Frontend.Product)
    (p : Frontend.Product) :
    (p ∈ Frontend.lowStockItems products ↔
      p ∈ products ∧ p.quantity ≤ p.reorderLevel) ∧
    (p ∈ products → p.quantity = p.reorderLevel →
      p ∈ Frontend.lowStockItems products) ∧
    (p.quantity = p.reorderLevel + 1 →
      p ∉ Frontend.lowStockItems products) := by
  have hmem : p ∈ Frontend.lowStockItems products ↔
      p ∈ products ∧ p.quantity ≤ p.reorderLevel := by
    simp [Frontend.lowStockItems, List.mem_filter]
  refine ⟨hmem, ?_, ?_⟩
  · intro hp hq
    exact hmem.mpr ⟨hp, le_of_eq hq⟩
  · intro hq hin
    have := (hmem.mp hin).2
    omega

/-- Witness for C8: the sample product sits exactly at its reorder
level and is classified low-stock. -/
theorem lowStock_boundary_witness :
    fSample ∈ Frontend.lowStockItems [fSample] :=
  (lowStock_boundary [fSample] fSample).2.1 (by simp) rfl

/-- C9: membership in the dashboard expiring-soon filter holds exactly
when the floored day distance to the expiration date satisfies
`0 < days ≤ 90`; a listed product expiring in exactly 90 days is
included, one expiring in 91 days is excluded, and an expired one
(0 or negative days) is excluded. -/
theorem expiringSoon_boundary (todayMs : Int) (parse : String → Int)
    (products : List Frontend.Product) (p : Frontend.Product) :
    (p ∈ Frontend.expiringSoon todayMs parse products ↔
      p ∈ products ∧
        0 < Frontend.daysUntilExpiration (parse p.expirationDate) todayMs ∧
        Frontend.daysUntilExpiration (parse p.expirationDate) todayMs ≤ 90) ∧
    (p ∈ products →
      Frontend.daysUntilExpiration (parse p.expirationDate) todayMs = 90 →
      p ∈ Frontend.expiringSoon todayMs parse products) ∧
    (Frontend.daysUntilExpiration (parse p.expirationDate) todayMs = 91 →
      p ∉ Frontend.expiringSoon todayMs parse products) ∧
    (Frontend.daysUntilExpiration (parse p.expirationDate) todayMs ≤ 0 →
      p ∉ Frontend.expiringSoon todayMs parse products) := by
  have hmem : p ∈ Frontend.expiringSoon todayMs parse products ↔
      p ∈ products ∧
        0 < Frontend.daysUntilExpiration (parse p.expirationDate) todayMs ∧
        Frontend.daysUntilExpiration (parse p.expirationDate) todayMs ≤ 90 := by
    simp only [Frontend.expiringSoon, List.mem_filter, Bool.and_eq_true,
      decide_eq_true_eq]
    constructor
    · rintro ⟨h1, h2, h3⟩
      exact ⟨h1, h3, h2⟩
    · rintro ⟨h1, h2, h3⟩
      exact ⟨h1, h3, h2⟩
  refine ⟨hmem, ?_, ?_, ?_⟩
  · intro hp hq
    refine hmem.mpr ⟨hp, ?_, ?_⟩ <;> omega
  · intro hq hin
    have := (hmem.mp hin).2
    omega
  · intro hq hin
    have := (hmem.mp hin).2
    omega

/-- Witness for C9: with "today" at epoch 0 and the expiration parsed
to exactly 90 days later, the sample product is in the filter. -/
theorem expiringSoon_boundary_witness :
    fSample ∈ Frontend.expiringSoon 0 (fun _ => 7776000000) [fSample] :=
  (expiringSoon_boundary 0 (fun _ => 7776000000) [fSample] fSample).2.1
    (by simp) (by decide)

/-- C10: `handleUpdateProduct` preserves the length of the list; when
no entry's id matches the updated product's id the list is returned
exactly unchanged; and position by position every entry is kept except
that entries whose id matches are replaced by the updated product. -/
theorem handleUpdateProduct_frame (products : List Frontend.Product)
    (u : Frontend.Product) :
    (Frontend.handleUpdateProduct products u).length = products.length ∧
    ((∀ p ∈ products, p.id ≠ u.id) →
      Frontend.handleUpdateProduct products u = products) ∧
    (∀ i : Nat, (Frontend.handleUpdateProduct products u)[i]? =
      (products[i]?).map (fun p => if p.id = u.id then u else p)) := by
  refine ⟨by simp [Frontend.handleUpdateProduct], ?_, ?_⟩
  · intro h
    have hfix : ∀ p ∈ products, (if p.id = u.id then u else p) = p := by
      intro p hp
      rw [if_neg (h p hp)]
    calc Frontend.handleUpdateProduct products u
        = products.map (fun p => p) := List.map_congr_left hfix
      _ = products := List.map_id' products
  · intro i
    simp [Frontend.handleUpdateProduct, List.getElem?_map]

/-- Witness for C10: updating with an id absent from the list leaves
the list unchanged. -/
theorem handleUpdateProduct_frame_witness :
    Frontend.handleUpdateProduct [fSample] fUpdate = [fSample] :=
  (handleUpdateProduct_frame [fSample] fUpdate).2.1 (by decide)
